import Mathlib

/-
Verification of the YAML Pod-descriptor validator.

The repository holds two variants of the validator:

* `CollectAll` — the diagnostic-collecting engine of the second Go file
  (`validateYAML(data []byte, filename string) []string`): it parses the
  document into a generic tree (`map[string]interface{}` with nested maps,
  slices and scalars, the work of the external `yaml.v3` parser) and walks
  it, appending every violation to a `Validator.errors` slice.

* `FailFast` — the first-error engine of the other Go file
  (`validateYAML(data []byte) error`): it decodes the document into typed
  structs and returns the first violation as an `error`, or `nil`.

The external YAML parser is modelled as a value of type
`Except String tree`: the engines receive the parse outcome, exactly at
the boundary where the Go code calls `yaml.Unmarshal`.

Generic tree values mirror yaml.v3 decoding into `interface{}`: strings,
Go `int`s (modelled as `Int`), `float64`s (modelled as `Rat`, which is
exact for every comparison the engines perform), booleans, `nil`, nested
`map[string]interface{}` (an association list, in the iteration order
chosen by the Go runtime's `range`) and `[]interface{}`.
-/

/-- A node of the generic parsed document tree, mirroring what
`yaml.Unmarshal` into `interface{}` can produce. -/
inductive Value where
  | str (s : String)
  | int (n : Int)
  | float (q : Rat)
  | bool (b : Bool)
  | null
  | map (entries : List (String × Value))
  | seq (items : List Value)

/-- Character-list matcher used to model `strings.HasPrefix`:
`pfxChars p s` holds when `p` is an initial segment of `s`. -/
def pfxChars : List Char → List Char → Bool
  | [], _ => true
  | _ :: _, [] => false
  | p :: ps, c :: cs => decide (p = c) && pfxChars ps cs

/-- Models Go `strings.HasPrefix s pre`. -/
def strStartsWith (s pre : String) : Bool :=
  pfxChars pre.data s.data

/-- Models Go `strings.HasSuffix s post`. -/
def strEndsWith (s post : String) : Bool :=
  pfxChars post.data.reverse s.data.reverse

/-- Models Go `strings.Contains s needle` for the one-character needles
used by the validator (`":"`). -/
def strContainsChar (s : String) (c : Char) : Bool :=
  s.data.any (fun x => decide (x = c))

/-- A character in the regex class `[a-z]`. -/
def isLowerAZ (c : Char) : Bool :=
  decide ('a' ≤ c ∧ c ≤ 'z')

/-- Deterministic matcher for the anchored regular expression
`^[a-z]+(_[a-z]+)*$` of the Go sources (compiled with
`regexp.MustCompile`).  The Bool state records whether at least one
letter of the current word has been consumed; the two alternatives
(letter, underscore) start with distinct characters, so the automaton is
an exact compilation of the regex. -/
def snakeRun : Bool → List Char → Bool
  | inWord, [] => inWord
  | inWord, c :: cs =>
    if isLowerAZ c then snakeRun true cs
    else if c = '_' then (if inWord then snakeRun false cs else false)
    else false

/-- `snakeCaseRegex.MatchString` of the Go sources. -/
def snakeCaseMatch (s : String) : Bool :=
  snakeRun false s.data

/-- Splits a character list at underscores: returns the first word and
the remaining words.  Used only to state the specification-side
characterisation of the snake-case pattern. -/
def splitU : List Char → List Char × List (List Char)
  | [] => ([], [])
  | c :: cs =>
    let p := splitU cs
    if c = '_' then ([], p.1 :: p.2) else (c :: p.1, p.2)

/-- All words are non-empty runs of lowercase letters. -/
def wordsOK (ws : List (List Char)) : Bool :=
  ws.all (fun w => !w.isEmpty && w.all isLowerAZ)

/-- Modelled from the spec: a container name is one or more
lowercase-letter words joined by single underscores — splitting the
string at underscores yields only non-empty all-lowercase words (hence
no leading, trailing or doubled underscore, no digits, no empty
string). -/
def snakeCaseSpec (s : String) : Bool :=
  wordsOK ((splitU s.data).1 :: (splitU s.data).2)

/-- Models Go `filepath.Base` on a Unix path: strip trailing slashes,
then keep the last path element; `""` gives `"."`, an all-slash path
gives `"/"`. -/
def filepathBase (path : String) : String :=
  if path = "" then "." else
  let rcs := path.data.reverse.dropWhile (fun c => decide (c = '/'))
  let base := rcs.takeWhile (fun c => decide (c ≠ '/'))
  if base.isEmpty then "/" else String.mk base.reverse

namespace CollectAll

/-- Go map indexing `m["k"]` on the decoded `map[string]interface{}`
(keys are unique, so first-match association-list lookup agrees). -/
def lookup : List (String × Value) → String → Option Value
  | [], _ => none
  | kv :: rest, k => if kv.1 = k then some kv.2 else lookup rest k

/-- The `apiVersion` block of `Validator.validateTopLevel`. -/
def apiVersionErrs (document : List (String × Value)) (filename : String) : List String :=
  match lookup document "apiVersion" with
  | none => [filename ++ ": apiVersion is required"]
  | some (Value.str s) => if s ≠ "v1" then [filename ++ ": apiVersion must be 'v1'"] else []
  | some _ => [filename ++ ": apiVersion must be string"]

/-- The `kind` block of `Validator.validateTopLevel`. -/
def kindErrs (document : List (String × Value)) (filename : String) : List String :=
  match lookup document "kind" with
  | none => [filename ++ ": kind is required"]
  | some (Value.str s) => if s ≠ "Pod" then [filename ++ ": kind must be 'Pod'"] else []
  | some _ => [filename ++ ": kind must be string"]

/-- The `name` block of `Validator.validateMetadata` (its messages use
`filepath.Base` of the file name with a fixed `:4` line tag). -/
def metaNameErrs (metadata : List (String × Value)) (filename : String) : List String :=
  match lookup metadata "name" with
  | none => [filepathBase filename ++ ":4 name is required"]
  | some (Value.str s) => if s = "" then [filepathBase filename ++ ":4 name is required"] else []
  | some _ => [filename ++ ": metadata.name must be string"]

/-- The `namespace` block of `Validator.validateMetadata`. -/
def namespaceErrs (metadata : List (String × Value)) (filename : String) : List String :=
  match lookup metadata "namespace" with
  | none => []
  | some (Value.str _) => []
  | some _ => [filename ++ ": metadata.namespace must be string"]

/-- Body of the `for key, value := range labelsMap` loop of
`Validator.validateMetadata`. -/
def labelEntryErr (filename : String) (kv : String × Value) : List String :=
  match kv.2 with
  | Value.str _ => []
  | _ => [filename ++ ": metadata.labels." ++ kv.1 ++ " must be string"]

/-- The `labels` block of `Validator.validateMetadata`; the entry list is
visited in the order the Go runtime's `range` chooses. -/
def labelsErrs (metadata : List (String × Value)) (filename : String) : List String :=
  match lookup metadata "labels" with
  | none => []
  | some (Value.map labelsMap) => labelsMap.flatMap (labelEntryErr filename)
  | some _ => [filename ++ ": metadata.labels must be an object"]

/-- `Validator.validateMetadata`. -/
def validateMetadata (metadata : List (String × Value)) (filename : String) : List String :=
  metaNameErrs metadata filename ++ (namespaceErrs metadata filename ++ labelsErrs metadata filename)

mutual

/-- Models Go `fmt.Sprintf("%v", value)` for generic tree values.  Only
the default branch of `Validator.validateOS` uses it, for values that
are neither mappings nor strings; no theorem relies on this rendering. -/
def goFormatV : Value → String
  | Value.str s => s
  | Value.int n => toString n
  | Value.float q => toString q
  | Value.bool b => if b then "true" else "false"
  | Value.null => "<nil>"
  | Value.map es => "map[" ++ goFormatEntries es ++ "]"
  | Value.seq xs => "[" ++ goFormatItems xs ++ "]"

/-- Space-separated `key:value` rendering of mapping entries for `%v`. -/
def goFormatEntries : List (String × Value) → String
  | [] => ""
  | [kv] => kv.1 ++ ":" ++ goFormatV kv.2
  | kv :: rest => kv.1 ++ ":" ++ goFormatV kv.2 ++ " " ++ goFormatEntries rest

/-- Space-separated rendering of sequence items for `%v`. -/
def goFormatItems : List Value → String
  | [] => ""
  | [x] => goFormatV x
  | x :: rest => goFormatV x ++ " " ++ goFormatItems rest

end

/-- `Validator.validateOS`. -/
def validateOS (os : Value) (filename : String) : List String :=
  match os with
  | Value.map osMap =>
    (match lookup osMap "name" with
     | none => [filename ++ ": os.name is required"]
     | some (Value.str nameStr) =>
         if nameStr ≠ "linux" ∧ nameStr ≠ "windows" then
           [filepathBase filename ++ ":10 os has unsupported value '" ++ nameStr ++ "'"]
         else []
     | some _ => [filename ++ ": os.name must be string"])
  | Value.str osStr => [filepathBase filename ++ ":10 os has unsupported value '" ++ osStr ++ "'"]
  | other => [filepathBase filename ++ ":10 os has unsupported value '" ++ goFormatV other ++ "'"]

/-- The `name` block of `Validator.validateContainer`. -/
def containerNameErrs (container : List (String × Value)) (index : Nat) (filename : String) : List String :=
  match lookup container "name" with
  | none => [filename ++ ": container[" ++ toString index ++ "].name is required"]
  | some (Value.str nameStr) =>
      if snakeCaseMatch nameStr then []
      else [filename ++ ": container[" ++ toString index ++ "].name must be in snake_case format"]
  | some _ => [filename ++ ": container[" ++ toString index ++ "].name must be string"]

/-- The `image` block of `Validator.validateContainer`: the domain check
and the tag check are independent, so both diagnostics can appear. -/
def containerImageErrs (container : List (String × Value)) (index : Nat) (filename : String) : List String :=
  match lookup container "image" with
  | none => [filename ++ ": container[" ++ toString index ++ "].image is required"]
  | some (Value.str imageStr) =>
      (if strStartsWith imageStr "registry.bigbrother.io/" then []
       else [filename ++ ": container[" ++ toString index ++ "].image must be in domain registry.bigbrother.io"])
      ++ (if strContainsChar imageStr ':' then []
          else [filename ++ ": container[" ++ toString index ++ "].image must have a version tag"])
  | some _ => [filename ++ ": container[" ++ toString index ++ "].image must be string"]

/-- The `containerPort` block of `Validator.validateContainerPort`: Go
`int` and `float64` values both go through the same open-interval range
test `val <= 0 || val >= 65536`; any other runtime type is rejected. -/
def containerPortValueErrs (port : List (String × Value)) (containerIndex portIndex : Nat) (filename : String) : List String :=
  match lookup port "containerPort" with
  | none => [filename ++ ": container[" ++ toString containerIndex ++ "].ports[" ++ toString portIndex ++ "].containerPort is required"]
  | some (Value.int val) =>
      if val ≤ 0 ∨ val ≥ 65536 then
        [filename ++ ": container[" ++ toString containerIndex ++ "].ports[" ++ toString portIndex ++ "].containerPort value out of range"]
      else []
  | some (Value.float val) =>
      if val ≤ 0 ∨ val ≥ 65536 then
        [filename ++ ": container[" ++ toString containerIndex ++ "].ports[" ++ toString portIndex ++ "].containerPort value out of range"]
      else []
  | some _ => [filename ++ ": container[" ++ toString containerIndex ++ "].ports[" ++ toString portIndex ++ "].containerPort must be integer"]

/-- The `protocol` block of `Validator.validateContainerPort`. -/
def protocolErrs (port : List (String × Value)) (containerIndex portIndex : Nat) (filename : String) : List String :=
  match lookup port "protocol" with
  | none => []
  | some (Value.str protocolStr) =>
      if protocolStr ≠ "TCP" ∧ protocolStr ≠ "UDP" then
        [filename ++ ": container[" ++ toString containerIndex ++ "].ports[" ++ toString portIndex ++ "].protocol must be 'TCP' or 'UDP'"]
      else []
  | some _ => [filename ++ ": container[" ++ toString containerIndex ++ "].ports[" ++ toString portIndex ++ "].protocol must be string"]

/-- `Validator.validateContainerPort`. -/
def validateContainerPort (port : List (String × Value)) (containerIndex portIndex : Nat) (filename : String) : List String :=
  containerPortValueErrs port containerIndex portIndex filename
    ++ protocolErrs port containerIndex portIndex filename

/-- Body of the `for key, value := range resources` loop of
`Validator.validateResourceRequirements`, dispatching on the key. -/
def resourceEntryErrs (containerIndex : Nat) (resourceType filename filenameOnly : String) (kv : String × Value) : List String :=
  if kv.1 = "cpu" then
    match kv.2 with
    | Value.int _ => []
    | Value.float _ => []
    | _ => [filenameOnly ++ ":27 cpu must be int"]
  else if kv.1 = "memory" then
    match kv.2 with
    | Value.str memoryStr =>
        if ["Gi", "Mi", "Ki"].any (fun sfx => strEndsWith memoryStr sfx) then []
        else [filename ++ ": container[" ++ toString containerIndex ++ "].resources." ++ resourceType ++ ".memory must end with Gi, Mi, or Ki"]
    | _ => [filename ++ ": container[" ++ toString containerIndex ++ "].resources." ++ resourceType ++ ".memory must be string"]
  else
    [filename ++ ": container[" ++ toString containerIndex ++ "].resources." ++ resourceType ++ "." ++ kv.1 ++ ": unknown resource type"]

/-- `Validator.validateResourceRequirements`; the entry list is visited
in the order the Go runtime's `range` chooses. -/
def validateResourceRequirements (resources : List (String × Value)) (containerIndex : Nat) (resourceType filename : String) : List String :=
  resources.flatMap (resourceEntryErrs containerIndex resourceType filename (filepathBase filename))

/-- `Validator.validateResources`. -/
def validateResources (resources : List (String × Value)) (containerIndex : Nat) (filename : String) : List String :=
  (match lookup resources "requests" with
   | none => []
   | some (Value.map requestsMap) => validateResourceRequirements requestsMap containerIndex "requests" filename
   | some _ => [filename ++ ": container[" ++ toString containerIndex ++ "].resources.requests must be an object"])
  ++ (match lookup resources "limits" with
      | none => []
      | some (Value.map limitsMap) => validateResourceRequirements limitsMap containerIndex "limits" filename
      | some _ => [filename ++ ": container[" ++ toString containerIndex ++ "].resources.limits must be an object"])

/-- `Validator.validateProbe` (all its messages use `filepath.Base` of
the file name). -/
def validateProbe (probe : List (String × Value)) (containerIndex : Nat) (probeType filename : String) : List String :=
  match lookup probe "httpGet" with
  | none => [filepathBase filename ++ ": container[" ++ toString containerIndex ++ "]." ++ probeType ++ ".httpGet is required"]
  | some (Value.map httpGetMap) =>
      (match lookup httpGetMap "path" with
       | none => [filepathBase filename ++ ": container[" ++ toString containerIndex ++ "]." ++ probeType ++ ".httpGet.path is required"]
       | some (Value.str pathStr) =>
           if strStartsWith pathStr "/" then []
           else [filepathBase filename ++ ": container[" ++ toString containerIndex ++ "]." ++ probeType ++ ".httpGet.path must be absolute"]
       | some _ => [filepathBase filename ++ ": container[" ++ toString containerIndex ++ "]." ++ probeType ++ ".httpGet.path must be string"])
      ++ (match lookup httpGetMap "port" with
          | none => [filepathBase filename ++ ": container[" ++ toString containerIndex ++ "]." ++ probeType ++ ".httpGet.port is required"]
          | some (Value.int val) =>
              if val ≤ 0 ∨ val ≥ 65536 then [filepathBase filename ++ ":20 port value out of range"] else []
          | some (Value.float val) =>
              if val ≤ 0 ∨ val ≥ 65536 then [filepathBase filename ++ ":20 port value out of range"] else []
          | some _ => [filepathBase filename ++ ": container[" ++ toString containerIndex ++ "]." ++ probeType ++ ".httpGet.port must be integer"])
  | some _ => [filepathBase filename ++ ": container[" ++ toString containerIndex ++ "]." ++ probeType ++ ".httpGet must be an object"]

/-- The `ports` block of `Validator.validateContainer`. -/
def containerPortsErrs (container : List (String × Value)) (index : Nat) (filename : String) : List String :=
  match lookup container "ports" with
  | none => []
  | some (Value.seq portsList) =>
      portsList.enum.flatMap (fun p =>
        match p.2 with
        | Value.map portMap => validateContainerPort portMap index p.1 filename
        | _ => [filename ++ ": container[" ++ toString index ++ "].ports[" ++ toString p.1 ++ "] must be an object"])
  | some _ => [filename ++ ": container[" ++ toString index ++ "].ports must be an array"]

/-- The `resources` block of `Validator.validateContainer`. -/
def containerResourcesErrs (container : List (String × Value)) (index : Nat) (filename : String) : List String :=
  match lookup container "resources" with
  | none => [filename ++ ": container[" ++ toString index ++ "].resources is required"]
  | some (Value.map resourcesMap) => validateResources resourcesMap index filename
  | some _ => [filename ++ ": container[" ++ toString index ++ "].resources must be an object"]

/-- The optional probe blocks of `Validator.validateContainer`
(`probeType` is `"readinessProbe"` or `"livenessProbe"`). -/
def containerProbeErrs (container : List (String × Value)) (index : Nat) (probeType filename : String) : List String :=
  match lookup container probeType with
  | none => []
  | some (Value.map probeMap) => validateProbe probeMap index probeType filename
  | some _ => [filename ++ ": container[" ++ toString index ++ "]." ++ probeType ++ " must be an object"]

/-- `Validator.validateContainer`. -/
def validateContainer (container : List (String × Value)) (index : Nat) (filename : String) : List String :=
  containerNameErrs container index filename
    ++ (containerImageErrs container index filename
    ++ (containerPortsErrs container index filename
    ++ (containerResourcesErrs container index filename
    ++ (containerProbeErrs container index "readinessProbe" filename
    ++ containerProbeErrs container index "livenessProbe" filename))))

/-- `Validator.validateSpec`. -/
def validateSpec (spec : List (String × Value)) (filename : String) : List String :=
  (match lookup spec "os" with
   | none => []
   | some osv => validateOS osv filename)
  ++ (match lookup spec "containers" with
      | none => [filename ++ ": spec.containers is required"]
      | some (Value.seq containersList) =>
          (if containersList.length = 0 then [filename ++ ": at least one container is required"] else [])
          ++ containersList.enum.flatMap (fun p =>
               match p.2 with
               | Value.map containerMap => validateContainer containerMap p.1 filename
               | _ => [filename ++ ": spec.containers[" ++ toString p.1 ++ "] must be an object"])
      | some _ => [filename ++ ": spec.containers must be an array"])

/-- The `metadata` block of `Validator.validateTopLevel`. -/
def metadataFieldErrs (document : List (String × Value)) (filename : String) : List String :=
  match lookup document "metadata" with
  | none => [filename ++ ": metadata is required"]
  | some (Value.map metadataMap) => validateMetadata metadataMap filename
  | some _ => [filename ++ ": metadata must be an object"]

/-- The `spec` block of `Validator.validateTopLevel`. -/
def specFieldErrs (document : List (String × Value)) (filename : String) : List String :=
  match lookup document "spec" with
  | none => [filename ++ ": spec is required"]
  | some (Value.map specMap) => validateSpec specMap filename
  | some _ => [filename ++ ": spec must be an object"]

/-- `Validator.validateTopLevel`: the four field blocks run in order and
the collected diagnostics are their concatenation. -/
def validateTopLevel (document : List (String × Value)) (filename : String) : List String :=
  apiVersionErrs document filename
    ++ (kindErrs document filename
    ++ (metadataFieldErrs document filename ++ specFieldErrs document filename))

/-- `validateYAML(data, filename)` of the collect-all variant, taken at
the boundary after the external `yaml.Unmarshal` call: a parse failure
yields exactly the one parse diagnostic, a parse success runs the
top-level field checks. -/
def validateYAML (parsed : Except String (List (String × Value))) (filename : String) : List String :=
  match parsed with
  | Except.error e => ["Validation failed: invalid YAML format: " ++ e]
  | Except.ok document => validateTopLevel document filename

end CollectAll

namespace FailFast

/-- `HTTPGetAction` of the typed fail-fast variant. -/
structure HTTPGetAction where
  path : String
  port : Int

/-- `Probe` of the typed fail-fast variant. -/
structure Probe where
  httpGet : HTTPGetAction

/-- `ContainerPort` of the typed fail-fast variant. -/
structure ContainerPort where
  containerPort : Int
  protocol : String

/-- `ResourceRequirements` of the typed fail-fast variant; the two maps
decode to `map[string]interface{}`, modelled as association lists in the
iteration order chosen by the Go runtime's `range`. -/
structure ResourceRequirements where
  requests : List (String × Value)
  limits : List (String × Value)

/-- `Container` of the typed fail-fast variant. -/
structure Container where
  name : String
  image : String
  ports : List ContainerPort
  readinessProbe : Option Probe
  livenessProbe : Option Probe
  resources : ResourceRequirements

/-- `PodOS` of the typed fail-fast variant. -/
structure PodOS where
  name : String

/-- `PodSpec` of the typed fail-fast variant. -/
structure PodSpec where
  os : Option PodOS
  containers : List Container

/-- `ObjectMeta` of the typed fail-fast variant (`namespace` is a Lean
keyword, hence the trailing underscore). -/
structure ObjectMeta where
  name : String
  namespace_ : String
  labels : List (String × String)

/-- `Pod` of the typed fail-fast variant. -/
structure Pod where
  apiVersion : String
  kind : String
  metadata : ObjectMeta
  spec : PodSpec

/-- `validateResource` of the fail-fast variant: `cpu` must be a Go
`int` (a `float64` fails the type assertion) and strictly positive;
`memory` must be a string with a `Gi`/`Mi`/`Ki` suffix; any other key is
an unknown resource type. -/
def validateResource (key : String) (value : Value) (containerIndex : Nat) (resourceType : String) : Except String Unit :=
  if key = "cpu" then
    match value with
    | Value.int cpu =>
        if cpu ≤ 0 then
          Except.error ("container[" ++ toString containerIndex ++ "].resources." ++ resourceType ++ ".cpu must be positive")
        else Except.ok ()
    | _ => Except.error ("container[" ++ toString containerIndex ++ "].resources." ++ resourceType ++ ".cpu must be an integer")
  else if key = "memory" then
    match value with
    | Value.str memory =>
        if ["Gi", "Mi", "Ki"].any (fun sfx => strEndsWith memory sfx) then Except.ok ()
        else Except.error ("container[" ++ toString containerIndex ++ "].resources." ++ resourceType ++ ".memory must end with Gi, Mi, or Ki")
    | _ => Except.error ("container[" ++ toString containerIndex ++ "].resources." ++ resourceType ++ ".memory must be a string")
  else
    Except.error ("container[" ++ toString containerIndex ++ "].resources." ++ resourceType ++ "." ++ key ++ ": unknown resource type")

/-- The `range` loop of the fail-fast `validateResources` over one of
the two maps, returning the first error. -/
def validateResourceList : List (String × Value) → Nat → String → Except String Unit
  | [], _, _ => Except.ok ()
  | kv :: rest, containerIndex, resourceType =>
      match validateResource kv.1 kv.2 containerIndex resourceType with
      | Except.error e => Except.error e
      | Except.ok _ => validateResourceList rest containerIndex resourceType

/-- `validateResources` of the fail-fast variant. -/
def validateResources (resources : ResourceRequirements) (containerIndex : Nat) : Except String Unit :=
  match validateResourceList resources.requests containerIndex "requests" with
  | Except.error e => Except.error e
  | Except.ok _ => validateResourceList resources.limits containerIndex "limits"

/-- `validateProbe` of the fail-fast variant. -/
def validateProbe (probe : Probe) (containerIndex : Nat) (probeType : String) : Except String Unit :=
  if probe.httpGet.path = "" then
    Except.error ("container[" ++ toString containerIndex ++ "]." ++ probeType ++ ".httpGet.path is required")
  else if ¬ strStartsWith probe.httpGet.path "/" then
    Except.error ("container[" ++ toString containerIndex ++ "]." ++ probeType ++ ".httpGet.path must be absolute")
  else if probe.httpGet.port ≤ 0 ∨ probe.httpGet.port ≥ 65536 then
    Except.error ("container[" ++ toString containerIndex ++ "]." ++ probeType ++ ".httpGet.port must be between 1 and 65535")
  else Except.ok ()

/-- Body of the `for j, port := range container.Ports` loop of the
fail-fast `validateContainer`: the range test on `containerPort`, then
the protocol test, which lets the empty string pass. -/
def checkPort (index j : Nat) (port : ContainerPort) : Except String Unit :=
  if port.containerPort ≤ 0 ∨ port.containerPort ≥ 65536 then
    Except.error ("container[" ++ toString index ++ "].ports[" ++ toString j ++ "].containerPort must be between 1 and 65535")
  else if port.protocol ≠ "" ∧ port.protocol ≠ "TCP" ∧ port.protocol ≠ "UDP" then
    Except.error ("container[" ++ toString index ++ "].ports[" ++ toString j ++ "].protocol must be 'TCP' or 'UDP'")
  else Except.ok ()

/-- The ports loop of the fail-fast `validateContainer`. -/
def checkPorts : Nat → Nat → List ContainerPort → Except String Unit
  | _, _, [] => Except.ok ()
  | index, j, port :: rest =>
      match checkPort index j port with
      | Except.error e => Except.error e
      | Except.ok _ => checkPorts index (j + 1) rest

/-- `validateContainer` of the fail-fast variant. -/
def validateContainer (container : Container) (index : Nat) : Except String Unit :=
  if container.name = "" then
    Except.error ("container[" ++ toString index ++ "].name is required")
  else if ¬ snakeCaseMatch container.name then
    Except.error ("container[" ++ toString index ++ "].name must be in snake_case format")
  else if container.image = "" then
    Except.error ("container[" ++ toString index ++ "].image is required")
  else if ¬ strStartsWith container.image "registry.bigbrother.io/" then
    Except.error ("container[" ++ toString index ++ "].image must be in domain registry.bigbrother.io")
  else if ¬ strContainsChar container.image ':' then
    Except.error ("container[" ++ toString index ++ "].image must have a version tag")
  else
    match checkPorts index 0 container.ports with
    | Except.error e => Except.error e
    | Except.ok _ =>
        match (match container.readinessProbe with
               | some probe => validateProbe probe index "readinessProbe"
               | none => Except.ok ()) with
        | Except.error e => Except.error e
        | Except.ok _ =>
            match (match container.livenessProbe with
                   | some probe => validateProbe probe index "livenessProbe"
                   | none => Except.ok ()) with
            | Except.error e => Except.error e
            | Except.ok _ => validateResources container.resources index

/-- The `for i, container := range pod.Spec.Containers` loop of the
fail-fast `validateYAML`. -/
def validateContainers : Nat → List Container → Except String Unit
  | _, [] => Except.ok ()
  | i, container :: rest =>
      match validateContainer container i with
      | Except.error e => Except.error e
      | Except.ok _ => validateContainers (i + 1) rest

/-- The post-parse body of the fail-fast `validateYAML`. -/
def validatePod (pod : Pod) : Except String Unit :=
  if pod.apiVersion ≠ "v1" then Except.error "apiVersion must be 'v1'"
  else if pod.kind ≠ "Pod" then Except.error "kind must be 'Pod'"
  else if pod.metadata.name = "" then Except.error "metadata.name is required"
  else if pod.spec.containers.length = 0 then Except.error "at least one container is required"
  else
    match (match pod.spec.os with
           | some osv =>
               if osv.name ≠ "linux" ∧ osv.name ≠ "windows" then
                 Except.error "os.name must be 'linux' or 'windows'"
               else Except.ok ()
           | none => Except.ok ()) with
    | Except.error e => Except.error e
    | Except.ok _ => validateContainers 0 pod.spec.containers

/-- `validateYAML(data)` of the fail-fast variant, taken at the boundary
after the external `yaml.Unmarshal` call into the typed structs. -/
def validateYAML (parsed : Except String Pod) : Except String Unit :=
  match parsed with
  | Except.error e => Except.error ("invalid YAML format: " ++ e)
  | Except.ok pod => validatePod pod

end FailFast

/-- The minimal valid document of the specification, as the generic tree
the external parser produces for it. -/
def minimalDocument : List (String × Value) :=
  [("apiVersion", Value.str "v1"),
   ("kind", Value.str "Pod"),
   ("metadata", Value.map [("name", Value.str "web")]),
   ("spec", Value.map
     [("containers", Value.seq
       [Value.map
         [("name", Value.str "web_app"),
          ("image", Value.str "registry.bigbrother.io/app:v1"),
          ("resources", Value.map [])]])])]

/-- The minimal valid document of the specification, decoded into the
typed structs of the fail-fast variant (absent optional fields decode to
Go zero values). -/
def minimalPod : FailFast.Pod :=
  { apiVersion := "v1"
    kind := "Pod"
    metadata := { name := "web", namespace_ := "", labels := [] }
    spec :=
      { os := none
        containers :=
          [{ name := "web_app"
             image := "registry.bigbrother.io/app:v1"
             ports := []
             readinessProbe := none
             livenessProbe := none
             resources := { requests := [], limits := [] } }] } }

section Lemmas

/-- Joint characterisation of the snake-case automaton in terms of the
underscore-split words: from the word-start state the whole split must
consist of non-empty lowercase words; mid-word, the current word's
remainder may be any (possibly empty) lowercase run. -/
theorem snakeRun_splitU (cs : List Char) :
    snakeRun false cs = wordsOK ((splitU cs).1 :: (splitU cs).2)
      ∧ snakeRun true cs = ((splitU cs).1.all isLowerAZ && wordsOK (splitU cs).2) := by
  induction cs with
  | nil => exact ⟨rfl, rfl⟩
  | cons c cs ih =>
    obtain ⟨ih1, ih2⟩ := ih
    by_cases hL : isLowerAZ c = true
    · have hne : c ≠ '_' := by
        intro h
        subst h
        exact absurd hL (by decide)
      refine ⟨?_, ?_⟩
      · simp [snakeRun, splitU, hL, hne, wordsOK, ih2]
      · simp [snakeRun, splitU, hL, hne, wordsOK, ih2]
    · by_cases hU : c = '_'
      · subst hU
        refine ⟨?_, ?_⟩
        · simp [snakeRun, splitU, hL, wordsOK]
        · simp [snakeRun, splitU, hL, wordsOK, ih1]
      · refine ⟨?_, ?_⟩
        · simp [snakeRun, splitU, hL, hU, wordsOK]
        · simp [snakeRun, splitU, hL, hU, wordsOK]

/-- The Go regular-expression test and the word-wise specification of
the snake-case pattern agree on every string. -/
theorem snakeCaseMatch_eq_spec (s : String) : snakeCaseMatch s = snakeCaseSpec s :=
  (snakeRun_splitU s.data).1

end Lemmas

/-- Claim C1: the minimal valid document (apiVersion v1, kind Pod,
metadata.name web, one container named web_app with image
registry.bigbrother.io/app:v1 and empty resources) yields zero
diagnostics from the collect-all validator, and the fail-fast validator
returns no error for its typed decoding. -/
theorem c1_minimal_document_valid :
    CollectAll.validateYAML (Except.ok minimalDocument) "pod.yaml" = []
      ∧ FailFast.validateYAML (Except.ok minimalPod) = Except.ok () := by
  constructor
  · rfl
  · rfl

/-- Claim C2: for every input the structured-data parser rejects, both
validators return exactly the one diagnostic describing the parse error
and perform no field checks (that single string is the whole output). -/
theorem c2_parse_failure_single_diagnostic :
    ∀ (e filename : String),
      CollectAll.validateYAML (Except.error e) filename
          = ["Validation failed: invalid YAML format: " ++ e]
        ∧ (CollectAll.validateYAML (Except.error e) filename).length = 1
        ∧ FailFast.validateYAML (Except.error e) = Except.error ("invalid YAML format: " ++ e) := by
  intro e filename
  exact ⟨rfl, rfl, rfl⟩

/-- Claim C4: a string-valued container name yields no diagnostic from
the collect-all name check exactly when it is a sequence of non-empty
lowercase words joined by single underscores (the language of
`^[a-z]+(_[a-z]+)*$`); every other string — including `MyContainer`,
`my-container`, `my_Container`, `_leading` and strings with digits —
yields the snake-case format diagnostic. -/
theorem c4_container_name_snake_case :
    (∀ (container : List (String × Value)) (index : Nat) (filename s : String),
        CollectAll.lookup container "name" = some (Value.str s) →
        (CollectAll.containerNameErrs container index filename = [] ↔ snakeCaseSpec s = true)
          ∧ (snakeCaseSpec s = false →
              CollectAll.containerNameErrs container index filename
                = [filename ++ ": container[" ++ toString index ++ "].name must be in snake_case format"]))
      ∧ snakeCaseSpec "web_app" = true
      ∧ snakeCaseSpec "MyContainer" = false
      ∧ snakeCaseSpec "my-container" = false
      ∧ snakeCaseSpec "my_Container" = false
      ∧ snakeCaseSpec "_leading" = false
      ∧ snakeCaseSpec "name123" = false := by
  refine ⟨?_, rfl, rfl, rfl, rfl, rfl, rfl⟩
  intro container index filename s h
  simp only [CollectAll.containerNameErrs, h, snakeCaseMatch_eq_spec]
  by_cases hs : snakeCaseSpec s = true
  · simp [hs]
  · have hsf : snakeCaseSpec s = false := by simpa using hs
    simp [hsf]

/-- Witness for claim C4 at the concrete name `my-container`. -/
theorem c4_container_name_snake_case_witness :
    CollectAll.containerNameErrs [("name", Value.str "my-container")] 0 "pod.yaml"
      = ["pod.yaml" ++ ": container[" ++ toString (0 : Nat) ++ "].name must be in snake_case format"] :=
  (c4_container_name_snake_case.1 [("name", Value.str "my-container")] 0 "pod.yaml" "my-container" rfl).2 rfl

/-- Claim C3 counterexample: in the fail-fast variant a floating-point
cpu value is rejected (`value.(int)` fails on a `float64`), contradicting
the claim that an integer-or-float cpu is accepted in both variants. -/
theorem c3_cpu_float_failfast_counterexample :
    FailFast.validateResource "cpu" (Value.float 2) 0 "requests"
      = Except.error "container[0].resources.requests.cpu must be an integer" := by
  rfl

/-- Claim C3 (amended): in the collect-all variant a cpu entry is
accepted exactly when the value is an exact integer or a floating-point
value; in the fail-fast variant it is accepted exactly when it is an
exact, strictly positive integer (floats, strings, booleans and all
other types are rejected); in both variants `cpu: 2` passes and
`cpu: "2"` fails. -/
theorem c3_cpu_type_rule_amended :
    (∀ (v : Value) (containerIndex : Nat) (resourceType filename filenameOnly : String),
        CollectAll.resourceEntryErrs containerIndex resourceType filename filenameOnly ("cpu", v) = []
          ↔ ((∃ n : Int, v = Value.int n) ∨ (∃ q : Rat, v = Value.float q)))
      ∧ (∀ (v : Value) (containerIndex : Nat) (resourceType : String),
          FailFast.validateResource "cpu" v containerIndex resourceType = Except.ok ()
            ↔ (∃ n : Int, v = Value.int n ∧ 0 < n))
      ∧ CollectAll.validateResourceRequirements [("cpu", Value.int 2)] 0 "requests" "pod.yaml" = []
      ∧ CollectAll.validateResourceRequirements [("cpu", Value.str "2")] 0 "requests" "pod.yaml"
          = ["pod.yaml:27 cpu must be int"]
      ∧ FailFast.validateResource "cpu" (Value.int 2) 0 "requests" = Except.ok ()
      ∧ FailFast.validateResource "cpu" (Value.str "2") 0 "requests"
          = Except.error "container[0].resources.requests.cpu must be an integer" := by
  refine ⟨?_, ?_, rfl, rfl, rfl, rfl⟩
  · intro v containerIndex resourceType filename filenameOnly
    cases v <;> simp [CollectAll.resourceEntryErrs]
  · intro v containerIndex resourceType
    cases v with
    | int n =>
        constructor
        · intro hok
          refine ⟨n, rfl, ?_⟩
          by_contra hcon
          have hn : n ≤ 0 := by omega
          simp [FailFast.validateResource, hn] at hok
        · rintro ⟨m, hm, hpos⟩
          injection hm with hnm
          subst hnm
          have hn : ¬ n ≤ 0 := by omega
          simp [FailFast.validateResource, hn]
    | str s => simp [FailFast.validateResource]
    | float q => simp [FailFast.validateResource]
    | bool b => simp [FailFast.validateResource]
    | null => simp [FailFast.validateResource]
    | map es => simp [FailFast.validateResource]
    | seq xs => simp [FailFast.validateResource]

/-- Witness for the amended claim C3: a positive integer cpu request is
accepted by the fail-fast variant. -/
theorem c3_cpu_type_rule_amended_witness :
    FailFast.validateResource "cpu" (Value.int 3) 1 "limits" = Except.ok () :=
  (c3_cpu_type_rule_amended.2.1 (Value.int 3) 1 "limits").mpr ⟨3, rfl, by norm_num⟩

/-- Claim C5: a `containerPort` value that is an integer or float in
[1, 65535] yields no diagnostic; the values 0, 65536 and -1 (integer or
float) yield the out-of-range diagnostic; any non-numeric value yields
the must-be-integer diagnostic. -/
theorem c5_containerPort_domain :
    ∀ (port : List (String × Value)) (containerIndex portIndex : Nat) (filename : String) (v : Value),
      CollectAll.lookup port "containerPort" = some v →
      ((∀ n : Int, v = Value.int n → 1 ≤ n → n ≤ 65535 →
          CollectAll.containerPortValueErrs port containerIndex portIndex filename = [])
        ∧ (∀ q : Rat, v = Value.float q → 1 ≤ q → q ≤ 65535 →
            CollectAll.containerPortValueErrs port containerIndex portIndex filename = [])
        ∧ (v = Value.int 0 ∨ v = Value.int 65536 ∨ v = Value.int (-1)
             ∨ v = Value.float 0 ∨ v = Value.float 65536 ∨ v = Value.float (-1) →
            CollectAll.containerPortValueErrs port containerIndex portIndex filename
              = [filename ++ ": container[" ++ toString containerIndex ++ "].ports["
                  ++ toString portIndex ++ "].containerPort value out of range"])
        ∧ ((∀ n : Int, v ≠ Value.int n) → (∀ q : Rat, v ≠ Value.float q) →
            CollectAll.containerPortValueErrs port containerIndex portIndex filename
              = [filename ++ ": container[" ++ toString containerIndex ++ "].ports["
                  ++ toString portIndex ++ "].containerPort must be integer"])) := by
  intro port containerIndex portIndex filename v h
  refine ⟨?_, ?_, ?_, ?_⟩
  · rintro n rfl h1 h2
    have hc : ¬((n : Int) ≤ 0 ∨ n ≥ 65536) := by omega
    simp [CollectAll.containerPortValueErrs, h, hc]
  · rintro q rfl h1 h2
    have hc : ¬(q ≤ 0 ∨ q ≥ 65536) := by
      rintro (h' | h') <;> linarith
    simp [CollectAll.containerPortValueErrs, h, hc]
  · rintro (rfl | rfl | rfl | rfl | rfl | rfl) <;>
      simp [CollectAll.containerPortValueErrs, h]
  · intro hni hnq
    cases v with
    | int n => exact absurd rfl (hni n)
    | float q => exact absurd rfl (hnq q)
    | str s => simp [CollectAll.containerPortValueErrs, h]
    | bool b => simp [CollectAll.containerPortValueErrs, h]
    | null => simp [CollectAll.containerPortValueErrs, h]
    | map es => simp [CollectAll.containerPortValueErrs, h]
    | seq xs => simp [CollectAll.containerPortValueErrs, h]

/-- Witness for claim C5 at the concrete in-range port 8080. -/
theorem c5_containerPort_domain_witness :
    CollectAll.containerPortValueErrs [("containerPort", Value.int 8080)] 0 0 "pod.yaml" = [] :=
  (c5_containerPort_domain [("containerPort", Value.int 8080)] 0 0 "pod.yaml"
      (Value.int 8080) rfl).1 8080 rfl (by norm_num) (by norm_num)

/-- Claim C9: on the float branch of the collect-all containerPort check
only the open range (0, 65536) is tested, never integrality: every
floating-point value strictly between 0 and 65536 — whole number or not —
yields no diagnostic. -/
theorem c9_float_port_range_only :
    ∀ (port : List (String × Value)) (containerIndex portIndex : Nat) (filename : String) (q : Rat),
      CollectAll.lookup port "containerPort" = some (Value.float q) →
      0 < q → q < 65536 →
      CollectAll.containerPortValueErrs port containerIndex portIndex filename = [] := by
  intro port containerIndex portIndex filename q h h1 h2
  have hc : ¬(q ≤ 0 ∨ q ≥ 65536) := by
    rintro (h' | h') <;> linarith
  simp [CollectAll.containerPortValueErrs, h, hc]

/-- Witness for claim C9 at the non-whole float 80.5 = 161/2. -/
theorem c9_float_port_range_only_witness :
    ((161 : Rat) / 2).den ≠ 1
      ∧ CollectAll.containerPortValueErrs
          [("containerPort", Value.float ((161 : Rat) / 2))] 0 0 "pod.yaml" = [] :=
  ⟨by norm_num,
   c9_float_port_range_only [("containerPort", Value.float ((161 : Rat) / 2))] 0 0 "pod.yaml"
     ((161 : Rat) / 2) rfl (by norm_num) (by norm_num)⟩

/-- Claim C7: every entry of a requests/limits mapping whose key is
neither `cpu` nor `memory` contributes the unknown-resource-type
diagnostic for that key, whatever its value. -/
theorem c7_unknown_resource_key :
    ∀ (entries : List (String × Value)) (key : String) (v : Value)
      (containerIndex : Nat) (resourceType filename : String),
      (key, v) ∈ entries → key ≠ "cpu" → key ≠ "memory" →
      (filename ++ ": container[" ++ toString containerIndex ++ "].resources."
          ++ resourceType ++ "." ++ key ++ ": unknown resource type")
        ∈ CollectAll.validateResourceRequirements entries containerIndex resourceType filename := by
  intro entries key v containerIndex resourceType filename hmem h1 h2
  unfold CollectAll.validateResourceRequirements
  rw [List.mem_flatMap]
  refine ⟨(key, v), hmem, ?_⟩
  simp [CollectAll.resourceEntryErrs, h1, h2]

/-- Witness for claim C7 at the concrete unknown key `gpu`. -/
theorem c7_unknown_resource_key_witness :
    ("pod.yaml" ++ ": container[" ++ toString (0 : Nat) ++ "].resources."
        ++ "limits" ++ "." ++ "gpu" ++ ": unknown resource type")
      ∈ CollectAll.validateResourceRequirements [("gpu", Value.int 1)] 0 "limits" "pod.yaml" :=
  c7_unknown_resource_key [("gpu", Value.int 1)] "gpu" (Value.int 1) 0 "limits" "pod.yaml"
    (List.mem_singleton.mpr rfl) (by decide) (by decide)

/-- A permuted entry list makes the per-entry diagnostics a permutation
of the original: the multiset of diagnostics is iteration-order
independent even though their order is not. -/
theorem flatMap_perm_of_perm {α β : Type} {l₁ l₂ : List α} (f : α → List β)
    (p : List.Perm l₁ l₂) : List.Perm (l₁.flatMap f) (l₂.flatMap f) := by
  induction p with
  | nil => simp
  | cons x _ ih => simpa using ih.append_left (f x)
  | swap x y l =>
      simp only [List.flatMap_cons, ← List.append_assoc]
      exact List.perm_append_comm.append_right _
  | trans _ _ ih₁ ih₂ => exact ih₁.trans ih₂

/-- Claim C8 counterexample: the two range orders of one stored
two-entry resources mapping (the lists are permutations of each other,
i.e. the same `map[string]interface{}`) produce different diagnostic
lists, so the output is not a function of the document bytes alone and
does not follow a fixed insertion order. -/
theorem c8_iteration_order_counterexample :
    List.Perm [("alpha", Value.int 1), ("beta", Value.int 2)]
        [("beta", Value.int 2), ("alpha", Value.int 1)]
      ∧ CollectAll.validateResourceRequirements
            [("alpha", Value.int 1), ("beta", Value.int 2)] 0 "requests" "pod.yaml"
          ≠ CollectAll.validateResourceRequirements
            [("beta", Value.int 2), ("alpha", Value.int 1)] 0 "requests" "pod.yaml" := by
  refine ⟨List.Perm.swap _ _ _, ?_⟩
  decide

/-- Claim C8 (amended): the engine is deterministic given the parsed
tree together with the iteration order the Go runtime picks for each
mapping; permuting the iteration order of a labels or requests/limits
mapping permutes the corresponding diagnostics — the multiset of
diagnostics is order-independent — but the list order follows the
runtime's map iteration order, which is not guaranteed to be the
insertion order. -/
theorem c8_determinism_amended :
    (∀ (m₁ m₂ : List (String × Value)) (filename : String) (l₁ l₂ : List (String × Value)),
        CollectAll.lookup m₁ "name" = CollectAll.lookup m₂ "name" →
        CollectAll.lookup m₁ "namespace" = CollectAll.lookup m₂ "namespace" →
        CollectAll.lookup m₁ "labels" = some (Value.map l₁) →
        CollectAll.lookup m₂ "labels" = some (Value.map l₂) →
        List.Perm l₁ l₂ →
        List.Perm (CollectAll.validateMetadata m₁ filename) (CollectAll.validateMetadata m₂ filename))
      ∧ (∀ (r₁ r₂ : List (String × Value)) (containerIndex : Nat) (resourceType filename : String),
          List.Perm r₁ r₂ →
          List.Perm (CollectAll.validateResourceRequirements r₁ containerIndex resourceType filename)
            (CollectAll.validateResourceRequirements r₂ containerIndex resourceType filename)) := by
  constructor
  · intro m₁ m₂ filename l₁ l₂ hname hns hl₁ hl₂ hperm
    unfold CollectAll.validateMetadata
    have e1 : CollectAll.metaNameErrs m₁ filename = CollectAll.metaNameErrs m₂ filename := by
      unfold CollectAll.metaNameErrs
      rw [hname]
    have e2 : CollectAll.namespaceErrs m₁ filename = CollectAll.namespaceErrs m₂ filename := by
      unfold CollectAll.namespaceErrs
      rw [hns]
    rw [e1, e2]
    refine List.Perm.append_left _ (List.Perm.append_left _ ?_)
    simp only [CollectAll.labelsErrs, hl₁, hl₂]
    exact flatMap_perm_of_perm _ hperm
  · intro r₁ r₂ containerIndex resourceType filename hperm
    unfold CollectAll.validateResourceRequirements
    exact flatMap_perm_of_perm _ hperm

/-- Witness for the amended claim C8: swapping the range order of a
two-entry requests mapping permutes the diagnostic list. -/
theorem c8_determinism_amended_witness :
    List.Perm
      (CollectAll.validateResourceRequirements
        [("alpha", Value.bool true), ("beta", Value.null)] 0 "requests" "pod.yaml")
      (CollectAll.validateResourceRequirements
        [("beta", Value.null), ("alpha", Value.bool true)] 0 "requests" "pod.yaml") :=
  c8_determinism_amended.2 _ _ 0 "requests" "pod.yaml" (List.Perm.swap _ _ _)

/-- Claim C10: in the fail-fast variant a port entry whose `protocol`
field holds the empty string produces no diagnostic — the check
`Protocol != "" && Protocol != "TCP" && Protocol != "UDP"` lets `""`
through, exactly as if the field were absent — while any other string
besides `TCP` and `UDP` is rejected; a full container with an
empty-string protocol validates cleanly. -/
theorem c10_empty_protocol_failfast :
    (∀ (p : Int) (index j : Nat), 1 ≤ p → p ≤ 65535 →
        FailFast.checkPort index j { containerPort := p, protocol := "" } = Except.ok ())
      ∧ (∀ (p : Int) (index j : Nat) (s : String), 1 ≤ p → p ≤ 65535 →
          s ≠ "" → s ≠ "TCP" → s ≠ "UDP" →
          FailFast.checkPort index j { containerPort := p, protocol := s }
            = Except.error ("container[" ++ toString index ++ "].ports[" ++ toString j
                ++ "].protocol must be 'TCP' or 'UDP'"))
      ∧ FailFast.validateContainer
          { name := "web_app", image := "registry.bigbrother.io/app:v1",
            ports := [{ containerPort := 80, protocol := "" }],
            readinessProbe := none, livenessProbe := none,
            resources := { requests := [], limits := [] } } 0 = Except.ok () := by
  refine ⟨?_, ?_, rfl⟩
  · intro p index j h1 h2
    have hc : ¬(p ≤ 0 ∨ p ≥ 65536) := by omega
    simp [FailFast.checkPort, hc]
  · intro p index j s h1 h2 hs1 hs2 hs3
    have hc : ¬(p ≤ 0 ∨ p ≥ 65536) := by omega
    simp [FailFast.checkPort, hc, hs1, hs2, hs3]

/-- Witness for claim C10 at the concrete port 443 with empty protocol,
and a rejected non-empty protocol `SCTP`. -/
theorem c10_empty_protocol_failfast_witness :
    FailFast.checkPort 0 0 { containerPort := 443, protocol := "" } = Except.ok ()
      ∧ FailFast.checkPort 0 1 { containerPort := 443, protocol := "SCTP" }
          = Except.error ("container[" ++ toString (0 : Nat) ++ "].ports[" ++ toString (1 : Nat)
              ++ "].protocol must be 'TCP' or 'UDP'") :=
  ⟨c10_empty_protocol_failfast.1 443 0 0 (by norm_num) (by norm_num),
   c10_empty_protocol_failfast.2.1 443 0 1 "SCTP" (by norm_num) (by norm_num)
     (by decide) (by decide) (by decide)⟩
